import Mathlib

/-!
# Keyboard navigation with collision avoidance (`SurfaceViewerKeyPressInteractorStyle`)

A shallow embedding of `SurfaceViewerKeyPressInteractorStyle::OnKeyPress`
(`src/src/SurfaceViewerKeyPressInteractorStyle.cxx`) and of the member setup done by the
constructor.  The handler is a straight-line sequence of calls on a camera, a cell locator,
a selection extractor, an intersection filter and a render window; the embedding threads one
explicit `State` through that sequence.

* Numbers are exact rationals: `0.3`, `0.6`, `0.5` are `3/10`, `6/10`, `1/2`.
* The VTK filters whose results depend on the mesh geometry (cell locator, selection
  extraction, geometry filter, intersection filter) are fields of `Env`.
* The trigonometry of the camera (the unit view direction that belongs to an elevation and an
  azimuth angle) is the parameter `dop`.
* Every call on the locator, the extractor, the geometry filter, the intersection filter and
  the render window is appended to `State.log`, so that "is never invoked" and "one render"
  are statements about the log.
-/

namespace VirtualEndoscopy

/-! ## Vectors and boxes -/

/-- A point or direction of 3-space (`double[3]`). -/
structure Vec3 where
  x : ℚ
  y : ℚ
  z : ℚ
deriving DecidableEq

instance : Add Vec3 := ⟨fun a b => ⟨a.x + b.x, a.y + b.y, a.z + b.z⟩⟩

instance : Sub Vec3 := ⟨fun a b => ⟨a.x - b.x, a.y - b.y, a.z - b.z⟩⟩

/-- Scalar multiple `k * v`. -/
def Vec3.scale (k : ℚ) (v : Vec3) : Vec3 := ⟨k * v.x, k * v.y, k * v.z⟩

/-- The six numbers `bounds[0..5]` of an axis-aligned box: x-min, x-max, y-min, y-max,
z-min, z-max. -/
structure Bounds where
  b0 : ℚ
  b1 : ℚ
  b2 : ℚ
  b3 : ℚ
  b4 : ℚ
  b5 : ℚ
deriving DecidableEq

/-- Identifier of a cell of the collision surface (`vtkIdType`). -/
abbrev CellId := ℕ

/-- A mesh, as the list of its cells; `GetNumberOfCells` is the length. -/
abbrev Mesh := List CellId

/-! ## The camera -/

/-- The part of a `vtkCamera` the handler reads or writes.  The view-up vector is never
changed by the handler, so the direction of projection is fixed by two angles: the elevation
`pitch` (changed by `Pitch`) and the `azimuth` around the view-up vector (changed by
`Azimuth`), both in degrees.  `Distance` is the distance from `Position` to the focal
point. -/
structure Camera where
  Position : Vec3
  pitch : ℚ
  azimuth : ℚ
  Distance : ℚ
  ClippingRange : ℚ × ℚ
deriving DecidableEq

/-- The focal point: `Distance` ahead of the position along the direction of projection. -/
def Camera.FocalPoint (dop : ℚ → ℚ → Vec3) (c : Camera) : Vec3 :=
  c.Position + Vec3.scale c.Distance (dop c.pitch c.azimuth)

/-- Modelled from the spec: `vtkCamera::SetDistance` is a library primitive outside src/
("focal distance (fixed at 1 unit after every operation)").  The position and the direction
stay, the focal point is put at distance `d`; VTK does not store a distance below `0.0002`. -/
def SetDistance (d : ℚ) (c : Camera) : Camera :=
  { c with Distance := if d < 2 / 10000 then 2 / 10000 else d }

/-- Modelled from the spec: `vtkCamera::Pitch` is a library primitive outside src/ ("camera
rotation about its local horizontal axis").  The focal point is rotated about the camera
position by `angle` degrees: position and focal distance stay. -/
def Pitch (angle : ℚ) (c : Camera) : Camera :=
  { c with pitch := c.pitch + angle }

/-- Modelled from the spec: `vtkCamera::Azimuth` is a library primitive outside src/ ("camera
rotation about its ... vertical axis").  As VTK defines it the rotation by `angle` degrees is
about the view-up vector and centred at the focal point: the focal point and the focal
distance stay, and the position is carried around the focal point. -/
def Azimuth (dop : ℚ → ℚ → Vec3) (angle : ℚ) (c : Camera) : Camera :=
  { c with
    azimuth := c.azimuth + angle
    Position := c.FocalPoint dop - Vec3.scale c.Distance (dop c.pitch (c.azimuth + angle)) }

/-- Modelled from the spec: `vtkCamera::Dolly` is a library primitive outside src/ ("camera
translation along its viewing direction").  As VTK defines it, a non-positive `amount` is
ignored; otherwise the focal point stays and the camera is put at distance
`Distance / amount` from it, on the same line of sight. -/
def Dolly (dop : ℚ → ℚ → Vec3) (amount : ℚ) (c : Camera) : Camera :=
  if amount ≤ 0 then c
  else
    { c with
      Position := c.FocalPoint dop - Vec3.scale (c.Distance / amount) (dop c.pitch c.azimuth)
      Distance := c.Distance / amount }

/-- Modelled from the spec: `vtkCamera::SetClippingRange` is a library primitive outside
src/ ("clipping range (fixed pair [0.5, 1000.0])"); the pair is stored. -/
def SetClippingRange (near far : ℚ) (c : Camera) : Camera :=
  { c with ClippingRange := (near, far) }

/-! ## The scene and the state of the interactor style -/

/-- The mesh-dependent VTK filters used by the handler, as functions of their inputs. -/
structure Env where
  /-- `vtkCellLocator::FindCellsWithinBounds` on `Surface_col->GetOutput()`. -/
  FindCellsWithinBounds : Bounds → List CellId
  /-- `vtkExtractSelection` on `Surface_col`, for the index list held by `cellIdArray`. -/
  ExtractSelection : List CellId → Mesh
  /-- `vtkGeometryFilter`: the poly data made from the extracted grid. -/
  GeometryFilter : Mesh → Mesh
  /-- `vtkIntersectionPolyDataFilter::GetNumberOfIntersectionPoints` after `Update()`, for
  the sphere centred at the first argument and the second input of the filter. -/
  NumberOfIntersectionPoints : Vec3 → Mesh → ℤ

/-- A call on an external collaborator. -/
inductive Event where
  | FindCells (bounds : Bounds)
  | Extract (ids : List CellId)
  | Geometry
  | IntersectionUpdate
  | Render
deriving DecidableEq

/-- The members of `SurfaceViewerKeyPressInteractorStyle` the handler touches, and the log
of external calls.  `filterSurface` is input 1 of `intersectionPolyDataFilter`. -/
structure State where
  Camera : Camera
  SphereCenter : Vec3
  Surface : Mesh
  cellIdArray : List CellId
  selectedCells : Mesh
  nearestSurface : Mesh
  filterSurface : Mesh
  nb_inter : ℤ
  collision : Bool
  log : List Event

/-- The constructor (lines 35-47) followed by the setup calls: fresh, empty `cellIdArray`
and `selectedCells`, `nb_inter = 0`, `collision = true`; the camera, the sphere centre and
the surface are what the setters install, and `SetIntersectionPolyDataFilter` has bound that
surface as input 1 of the intersection filter.  The log starts empty after setup. -/
def construct (camera : Camera) (sphereCenter : Vec3) (surface : Mesh) : State :=
  { Camera := camera
    SphereCenter := sphereCenter
    Surface := surface
    cellIdArray := []
    selectedCells := []
    nearestSurface := []
    filterSurface := surface
    nb_inter := 0
    collision := true
    log := [] }

/-- Lines 179-185: the cube of half-width 1 centred on the camera position. -/
def cameraBounds (c : Camera) : Bounds :=
  { b0 := c.Position.x - 1
    b1 := c.Position.x + 1
    b2 := c.Position.y - 1
    b3 := c.Position.y + 1
    b4 := c.Position.z - 1
    b5 := c.Position.z + 1 }

/-- Lines 109-118, `SetIntersectionPolyDataFilter`: input 1 of the filter becomes `Surface`
and the filter is updated. -/
def SetIntersectionPolyDataFilter (s : State) : State :=
  { s with filterSurface := s.Surface, log := s.log ++ [Event.IntersectionUpdate] }

/-- Lines 169-216: query the locator for the box around the camera, append every id found to
the member `cellIdArray` (`InsertNextValue`; the array is created once, in the constructor,
and the handler never empties it), and extract the cells selected by `cellIdArray`. -/
def extractSelectedCells (env : Env) (s : State) : State :=
  let bounds := cameraBounds s.Camera
  let cellIdList := env.FindCellsWithinBounds bounds
  let ids := s.cellIdArray ++ cellIdList
  { s with
    cellIdArray := ids
    selectedCells := env.ExtractSelection ids
    log := s.log ++ [Event.FindCells bounds, Event.Extract ids] }

/-- Lines 222-234: when the selection has a cell, it becomes `nearestSurface`, the collision
`Surface`, and the second input of the intersection filter. -/
def retargetSurface (env : Env) (s : State) : State :=
  if 1 ≤ s.selectedCells.length then
    let nearest := env.GeometryFilter s.selectedCells
    SetIntersectionPolyDataFilter
      { s with nearestSurface := nearest, Surface := nearest, log := s.log ++ [Event.Geometry] }
  else s

/-- The body shared by lines 244-272 and 284-314: when the selection has a cell, re-centre
the sphere, render, update the intersection filter, store its count in `nb_inter`, and when
the count is positive apply `Dolly(correction)`, fix the distance and render again. -/
def probeAndCorrect (dop : ℚ → ℚ → Vec3) (env : Env) (correction : ℚ) (s : State) : State :=
  if 1 ≤ s.selectedCells.length then
    let center := s.Camera.Position
    let n := env.NumberOfIntersectionPoints center s.filterSurface
    let s1 : State :=
      { s with
        SphereCenter := center
        nb_inter := n
        log := s.log ++ [Event.Render, Event.IntersectionUpdate] }
    if 0 < n then
      { s1 with
        Camera := SetDistance 1 (Dolly dop correction s1.Camera)
        log := s1.log ++ [Event.Render] }
    else s1
  else s

/-- One translation step: `Dolly(amount)` followed by `SetDistance(1)`. -/
def dollyStep (dop : ℚ → ℚ → Vec3) (amount : ℚ) (s : State) : State :=
  { s with Camera := SetDistance 1 (Dolly dop amount s.Camera) }

/-- Lines 161-316, the branch taken for `z`, `Z`, `s`, `S` when `collision` is set. -/
def collisionBranch (dop : ℚ → ℚ → Vec3) (env : Env) (key : String) (s : State) : State :=
  let s1 := retargetSurface env (extractSelectedCells env s)
  let s2 :=
    if key = "z" ∨ key = "Z" then probeAndCorrect dop env (3 / 10) (dollyStep dop 5 s1)
    else s1
  if key = "s" ∨ key = "S" then probeAndCorrect dop env 10 (dollyStep dop (6 / 10) s2)
  else s2

/-- Lines 318-334, the branch taken when `collision` is not set. -/
def freeBranch (dop : ℚ → ℚ → Vec3) (key : String) (s : State) : State :=
  let s1 := if key = "z" ∨ key = "Z" then dollyStep dop 5 s else s
  if key = "s" ∨ key = "S" then dollyStep dop (6 / 10) s1 else s1

/-- Lines 343-354, the tail run on every key press that returns. -/
def tail (s : State) : State :=
  let cam := SetDistance 1 (SetClippingRange (1 / 2) 1000 s.Camera)
  { s with Camera := cam, SphereCenter := cam.Position, log := s.log ++ [Event.Render] }

/-- Lines 134-158, the four arrow keys: `Up` is `Pitch(1)`, `Down` is `Pitch(-1)`, `Left`
is `Azimuth(1)`, `Right` is `Azimuth(-1)`. -/
def arrowKeys (dop : ℚ → ℚ → Vec3) (key : String) (c : Camera) : Camera :=
  let c1 := if key = "Up" then Pitch 1 c else c
  let c2 := if key = "Down" then Pitch (-1) c1 else c1
  let c3 := if key = "Left" then Azimuth dop 1 c2 else c2
  if key = "Right" then Azimuth dop (-1) c3 else c3

/-- Lines 125-358, `OnKeyPress` for the key symbol `key`.  `none` is `exit(0)`: the handler
does not return on `Escape`. -/
def OnKeyPress (dop : ℚ → ℚ → Vec3) (env : Env) (key : String) (s : State) : Option State :=
  let s4 : State := { s with Camera := arrowKeys dop key (SetDistance 1 s.Camera) }
  let s5 : State :=
    if (key = "z" ∨ key = "Z" ∨ key = "s" ∨ key = "S") ∧ s4.collision = true then
      collisionBranch dop env key s4
    else s4
  let s6 : State := if s5.collision = false then freeBranch dop key s5 else s5
  if key = "Escape" then none else some (tail s6)

/-- A sequence of key presses, each handled by `OnKeyPress`; `none` once a press exits. -/
def pressKeys (dop : ℚ → ℚ → Vec3) (env : Env) : List String → State → Option State
  | [], s => some s
  | key :: rest, s => (OnKeyPress dop env key s).bind (pressKeys dop env rest)

/-- Number of `Render()` calls recorded in a log. -/
def renderCount (log : List Event) : ℕ := log.count Event.Render

/-- The state at the end of lines 169-234 of a collision-checked key press: after the opening
`SetDistance(1)`, the locator query, the extraction and the re-targeting of `Surface`. -/
def patchState (env : Env) (s : State) : State :=
  retargetSurface env (extractSelectedCells env { s with Camera := SetDistance 1 s.Camera })

/-- The local patch extracted on a collision-checked key press from state `s`. -/
def localPatch (env : Env) (s : State) : Mesh := (patchState env s).selectedCells

/-- The count the intersection filter reports on a collision-checked key press from `s`,
once the camera has made its step `Dolly(amount)`, `SetDistance(1)`. -/
def probeCount (dop : ℚ → ℚ → Vec3) (env : Env) (amount : ℚ) (s : State) : ℤ :=
  env.NumberOfIntersectionPoints (dollyStep dop amount (patchState env s)).Camera.Position
    (dollyStep dop amount (patchState env s)).filterSurface

/-! ## Sample scenes -/

/-- A rational unit direction for an elevation `pitch` and an azimuth `azimuth` in degrees,
turning as `vtkCamera` does about the view-up axis `y`: the exact direction is
`(-cos pitch * sin azimuth, sin pitch, -cos pitch * cos azimuth)`, and sine and cosine are
taken from the half-angle parametrisation of the circle with `tan (a / 2)` as `17 * a / 1948`
(`tan 0.5° = 0.0087269`, so one unit is one degree to within a few parts per million; the
parametrisation is meant for the small angles used below).  It is `(0, 0, -1)`, the
direction of a default VTK camera, at `pitch = azimuth = 0`, and about
`(-0.017452, 0, -0.999848)` at `pitch = 0`, `azimuth = 1`. -/
def sampleDirection (pitch azimuth : ℚ) : Vec3 :=
  let t := 17 * azimuth / 1948
  let u := 17 * pitch / 1948
  let cosA := (1 - t * t) / (1 + t * t)
  let sinA := 2 * t / (1 + t * t)
  let cosP := (1 - u * u) / (1 + u * u)
  let sinP := 2 * u / (1 + u * u)
  ⟨-(cosP * sinA), sinP, -(cosP * cosA)⟩

/-- A default VTK camera: at `(0, 0, 1)`, looking at the origin. -/
def sampleCamera : Camera :=
  { Position := ⟨0, 0, 1⟩, pitch := 0, azimuth := 0, Distance := 1,
    ClippingRange := (1 / 100, 1000) }

/-- A scene whose locator finds cell 7 in boxes reaching above `z = 3/2` and cell 9 in the
others, whose extraction returns the listed cells, and where the sphere meets nothing. -/
def openScene : Env :=
  { FindCellsWithinBounds := fun b => if 3 / 2 < b.b5 then [7] else [9]
    ExtractSelection := fun ids => ids
    GeometryFilter := fun m => m
    NumberOfIntersectionPoints := fun _ _ => 0 }

/-- A scene with one cell near every camera position, met by the sphere in 2 points. -/
def blockedScene : Env :=
  { FindCellsWithinBounds := fun _ => [0]
    ExtractSelection := fun ids => ids
    GeometryFilter := fun m => m
    NumberOfIntersectionPoints := fun _ _ => 2 }

/-- A scene with no cell near any camera position. -/
def emptyScene : Env :=
  { FindCellsWithinBounds := fun _ => []
    ExtractSelection := fun ids => ids
    GeometryFilter := fun m => m
    NumberOfIntersectionPoints := fun _ _ => 2 }

/-- The interactor style right after construction and setup around `sampleCamera`. -/
def sampleState : State := construct sampleCamera ⟨0, 0, 1⟩ [1, 2, 3]

/-! ## Camera primitives -/

@[ext]
theorem Vec3.ext_components {a b : Vec3} (hx : a.x = b.x) (hy : a.y = b.y) (hz : a.z = b.z) :
    a = b := by
  cases a; cases b; simp_all

@[simp]
theorem Vec3.add_x (a b : Vec3) : (a + b).x = a.x + b.x := rfl

@[simp]
theorem Vec3.add_y (a b : Vec3) : (a + b).y = a.y + b.y := rfl

@[simp]
theorem Vec3.add_z (a b : Vec3) : (a + b).z = a.z + b.z := rfl

@[simp]
theorem Vec3.sub_x (a b : Vec3) : (a - b).x = a.x - b.x := rfl

@[simp]
theorem Vec3.sub_y (a b : Vec3) : (a - b).y = a.y - b.y := rfl

@[simp]
theorem Vec3.sub_z (a b : Vec3) : (a - b).z = a.z - b.z := rfl

@[simp]
theorem Vec3.scale_x (k : ℚ) (v : Vec3) : (Vec3.scale k v).x = k * v.x := rfl

@[simp]
theorem Vec3.scale_y (k : ℚ) (v : Vec3) : (Vec3.scale k v).y = k * v.y := rfl

@[simp]
theorem Vec3.scale_z (k : ℚ) (v : Vec3) : (Vec3.scale k v).z = k * v.z := rfl


theorem Vec3.add_sub_eq_self_iff (p a b : Vec3) : p + a - b = p ↔ b = a := by
  constructor
  · intro h
    have hx := congrArg Vec3.x h
    have hy := congrArg Vec3.y h
    have hz := congrArg Vec3.z h
    simp only [Vec3.sub_x, Vec3.add_x, Vec3.sub_y, Vec3.add_y, Vec3.sub_z, Vec3.add_z] at hx hy hz
    ext <;> linarith
  · intro h
    subst h
    ext <;> simp

theorem SetDistance_one (c : Camera) : SetDistance 1 c = { c with Distance := 1 } := by
  simp only [SetDistance]
  norm_num

/-- From focal distance `d`, `Dolly(amount)` with `amount > 0` moves the camera by
`d - d / amount` along the direction of projection. -/
theorem Dolly_pos (dop : ℚ → ℚ → Vec3) (amount : ℚ) (h : 0 < amount) (c : Camera) :
    Dolly dop amount c =
      { c with
        Position :=
          c.Position + Vec3.scale (c.Distance - c.Distance / amount) (dop c.pitch c.azimuth)
        Distance := c.Distance / amount } := by
  have h0 : ¬ amount ≤ 0 := not_le.mpr h
  simp only [Dolly, h0, if_false, Camera.FocalPoint]
  congr 1
  ext <;> simp <;> ring

/-- The tail fixes the focal distance, the clipping range and the sphere centre. -/
theorem tail_spec (s : State) :
    (tail s).Camera = { s.Camera with Distance := 1, ClippingRange := (1 / 2, 1000) } ∧
      (tail s).SphereCenter = s.Camera.Position ∧
      (tail s).log = s.log ++ [Event.Render] ∧
      (tail s).Surface = s.Surface ∧ (tail s).cellIdArray = s.cellIdArray ∧
      (tail s).nb_inter = s.nb_inter ∧ (tail s).collision = s.collision := by
  simp [tail, SetDistance_one, SetClippingRange]

theorem OnKeyPress_eq_tail (dop : ℚ → ℚ → Vec3) (env : Env) (key : String) (s : State)
    (h : key ≠ "Escape") : ∃ s6, OnKeyPress dop env key s = some (tail s6) := by
  simp only [OnKeyPress, h, if_false]
  exact ⟨_, rfl⟩

/-! ## The branches of the handler -/

theorem patchState_camera (env : Env) (s : State) :
    (patchState env s).Camera = { s.Camera with Distance := 1 } ∧
      (patchState env s).collision = s.collision ∧
      (patchState env s).nb_inter = s.nb_inter ∧
      (patchState env s).cellIdArray =
        s.cellIdArray ++ env.FindCellsWithinBounds (cameraBounds s.Camera) ∧
      (patchState env s).selectedCells =
        env.ExtractSelection
          (s.cellIdArray ++ env.FindCellsWithinBounds (cameraBounds s.Camera)) := by
  simp only [patchState, retargetSurface, extractSelectedCells, SetIntersectionPolyDataFilter,
    SetDistance_one, cameraBounds]
  split <;> simp

theorem patchState_empty (env : Env) (s : State) (h : (localPatch env s).length = 0) :
    (patchState env s).Surface = s.Surface ∧
      (patchState env s).log =
        s.log ++ [Event.FindCells (cameraBounds s.Camera),
          Event.Extract (s.cellIdArray ++ env.FindCellsWithinBounds (cameraBounds s.Camera))] := by
  have h1 : ¬ 1 ≤ (env.ExtractSelection
      (s.cellIdArray ++ env.FindCellsWithinBounds (cameraBounds s.Camera))).length := by
    have := (patchState_camera env s).2.2.2.2
    rw [localPatch, this] at h
    omega
  simp only [cameraBounds] at h1
  simp [patchState, retargetSurface, extractSelectedCells, SetDistance_one, cameraBounds, h1]

theorem patchState_nonempty (env : Env) (s : State) (h : 1 ≤ (localPatch env s).length) :
    (patchState env s).Surface = env.GeometryFilter (localPatch env s) ∧
      (patchState env s).filterSurface = env.GeometryFilter (localPatch env s) ∧
      (patchState env s).log =
        s.log ++ [Event.FindCells (cameraBounds s.Camera),
          Event.Extract (s.cellIdArray ++ env.FindCellsWithinBounds (cameraBounds s.Camera)),
          Event.Geometry, Event.IntersectionUpdate] := by
  have h1 : 1 ≤ (env.ExtractSelection
      (s.cellIdArray ++ env.FindCellsWithinBounds (cameraBounds s.Camera))).length := by
    have := (patchState_camera env s).2.2.2.2
    rw [localPatch, this] at h
    exact h
  have h2 := (patchState_camera env s).2.2.2.2
  simp only [cameraBounds] at h1 h2
  simp [localPatch, h2, patchState, retargetSurface, extractSelectedCells, SetDistance_one,
    cameraBounds, h1, SetIntersectionPolyDataFilter]

@[simp]
theorem extractSelectedCells_collision (env : Env) (s : State) :
    (extractSelectedCells env s).collision = s.collision := rfl

@[simp]
theorem retargetSurface_collision (env : Env) (s : State) :
    (retargetSurface env s).collision = s.collision := by
  simp only [retargetSurface, SetIntersectionPolyDataFilter]
  split <;> rfl

@[simp]
theorem dollyStep_collision (dop : ℚ → ℚ → Vec3) (amount : ℚ) (s : State) :
    (dollyStep dop amount s).collision = s.collision := rfl

@[simp]
theorem probeAndCorrect_collision (dop : ℚ → ℚ → Vec3) (env : Env) (k : ℚ) (s : State) :
    (probeAndCorrect dop env k s).collision = s.collision := by
  simp only [probeAndCorrect]
  split_ifs <;> rfl

/-- A forward key with `collision` set runs lines 169-273 and the tail. -/
theorem OnKeyPress_forward (dop : ℚ → ℚ → Vec3) (env : Env) (key : String) (s : State)
    (hkey : key = "z" ∨ key = "Z") (hc : s.collision = true) :
    OnKeyPress dop env key s =
      some (tail (probeAndCorrect dop env (3 / 10) (dollyStep dop 5 (patchState env s)))) := by
  obtain ⟨cam, sc, sf, ids, sel, ns, fs, n, col, lg⟩ := s
  simp only at hc
  subst hc
  rcases hkey with rfl | rfl <;> simp [OnKeyPress, arrowKeys, collisionBranch, patchState]

/-- A backward key with `collision` set runs lines 169-234, 276-315 and the tail. -/
theorem OnKeyPress_backward (dop : ℚ → ℚ → Vec3) (env : Env) (key : String) (s : State)
    (hkey : key = "s" ∨ key = "S") (hc : s.collision = true) :
    OnKeyPress dop env key s =
      some (tail (probeAndCorrect dop env 10 (dollyStep dop (6 / 10) (patchState env s)))) := by
  obtain ⟨cam, sc, sf, ids, sel, ns, fs, n, col, lg⟩ := s
  simp only at hc
  subst hc
  rcases hkey with rfl | rfl <;> simp [OnKeyPress, arrowKeys, collisionBranch, patchState]

/-- A translation key with `collision` cleared runs lines 318-334 and the tail. -/
theorem OnKeyPress_free (dop : ℚ → ℚ → Vec3) (env : Env) (key : String) (s : State)
    (hkey : key = "z" ∨ key = "Z" ∨ key = "s" ∨ key = "S") (hc : s.collision = false) :
    OnKeyPress dop env key s =
      some { s with
        Camera :=
          SetDistance 1 (SetClippingRange (1 / 2) 1000
            (SetDistance 1
              (Dolly dop (if key = "z" ∨ key = "Z" then 5 else 6 / 10) (SetDistance 1 s.Camera))))
        SphereCenter := s.Camera.Position +
          Vec3.scale (1 - 1 / (if key = "z" ∨ key = "Z" then 5 else 6 / 10))
            (dop s.Camera.pitch s.Camera.azimuth)
        log := s.log ++ [Event.Render] } := by
  rcases hkey with rfl | rfl | rfl | rfl <;>
    simp [OnKeyPress, arrowKeys, freeBranch, dollyStep, tail, hc, SetDistance_one, SetClippingRange,
      Dolly_pos]

theorem probeAndCorrect_skip (dop : ℚ → ℚ → Vec3) (env : Env) (k : ℚ) (s : State)
    (h : s.selectedCells.length = 0) : probeAndCorrect dop env k s = s := by
  have h1 : ¬ 1 ≤ s.selectedCells.length := by omega
  simp [probeAndCorrect, h1]

theorem probeAndCorrect_blocked (dop : ℚ → ℚ → Vec3) (env : Env) (k : ℚ) (s : State)
    (h : 1 ≤ s.selectedCells.length)
    (hn : 0 < env.NumberOfIntersectionPoints s.Camera.Position s.filterSurface) :
    probeAndCorrect dop env k s =
      { s with
        Camera := SetDistance 1 (Dolly dop k s.Camera)
        SphereCenter := s.Camera.Position
        nb_inter := env.NumberOfIntersectionPoints s.Camera.Position s.filterSurface
        log := s.log ++ [Event.Render, Event.IntersectionUpdate, Event.Render] } := by
  simp [probeAndCorrect, h, hn]

theorem probeAndCorrect_clear (dop : ℚ → ℚ → Vec3) (env : Env) (k : ℚ) (s : State)
    (h : 1 ≤ s.selectedCells.length)
    (hn : ¬ 0 < env.NumberOfIntersectionPoints s.Camera.Position s.filterSurface) :
    probeAndCorrect dop env k s =
      { s with
        SphereCenter := s.Camera.Position
        nb_inter := env.NumberOfIntersectionPoints s.Camera.Position s.filterSurface
        log := s.log ++ [Event.Render, Event.IntersectionUpdate] } := by
  simp [probeAndCorrect, h, hn]

/-- A key that is neither a translation key nor `Escape` runs the arrow-key block and the
tail, nothing else. -/
theorem OnKeyPress_not_translation (dop : ℚ → ℚ → Vec3) (env : Env) (key : String) (s : State)
    (hkey : ¬ (key = "z" ∨ key = "Z" ∨ key = "s" ∨ key = "S")) (hEsc : key ≠ "Escape") :
    OnKeyPress dop env key s =
      some (tail { s with Camera := arrowKeys dop key (SetDistance 1 s.Camera) }) := by
  have hz : ¬ (key = "z" ∨ key = "Z") := fun h => hkey (by tauto)
  have hs : ¬ (key = "s" ∨ key = "S") := fun h => hkey (by tauto)
  cases hc : s.collision <;> simp [OnKeyPress, freeBranch, hkey, hz, hs, hEsc, hc]

/-! ## Claims -/

/-- C5: for every state, every value of the collision flag and every key other than
`Escape`, `OnKeyPress` returns, and in the state it returns the focal distance is 1, the
clipping range is `(0.5, 1000.0)` and the sphere centre is the camera position. -/
theorem OnKeyPress_tail_invariant (dop : ℚ → ℚ → Vec3) (env : Env) (key : String) (s : State)
    (h : key ≠ "Escape") :
    ∃ t, OnKeyPress dop env key s = some t ∧ t.Camera.Distance = 1 ∧
      t.Camera.ClippingRange = (1 / 2, 1000) ∧ t.SphereCenter = t.Camera.Position := by
  obtain ⟨s6, h6⟩ := OnKeyPress_eq_tail dop env key s h
  refine ⟨tail s6, h6, ?_, ?_, ?_⟩
  · rw [(tail_spec s6).1]
  · rw [(tail_spec s6).1]
  · rw [(tail_spec s6).2.1, (tail_spec s6).1]

/-- C5 at the key `z`, from the sample state in the blocked scene. -/
theorem OnKeyPress_tail_invariant_witness :
    ("z" : String) ≠ "Escape" ∧
      ∃ t, OnKeyPress sampleDirection blockedScene "z" sampleState = some t ∧
        t.Camera.Distance = 1 ∧ t.Camera.ClippingRange = (1 / 2, 1000) ∧
        t.SphereCenter = t.Camera.Position :=
  ⟨by decide, OnKeyPress_tail_invariant sampleDirection blockedScene "z" sampleState (by decide)⟩

/-- C6: for a key symbol outside `Up`, `Down`, `Left`, `Right`, `z`, `Z`, `s`, `S`, `Escape`
and either value of the collision flag, the state returned by `OnKeyPress` is the starting
state with focal distance 1, clipping range `(0.5, 1000.0)`, the sphere centred on the
(unmoved) camera and one `Render` appended to the log: camera position and orientation,
`Surface`, `cellIdArray` and `nb_inter` are unchanged. -/
theorem OnKeyPress_unmapped (dop : ℚ → ℚ → Vec3) (env : Env) (key : String) (s : State)
    (hUp : key ≠ "Up") (hDown : key ≠ "Down") (hLeft : key ≠ "Left") (hRight : key ≠ "Right")
    (hz : key ≠ "z") (hZ : key ≠ "Z") (hs : key ≠ "s") (hS : key ≠ "S")
    (hEsc : key ≠ "Escape") :
    OnKeyPress dop env key s =
      some { s with
        Camera := { s.Camera with Distance := 1, ClippingRange := (1 / 2, 1000) }
        SphereCenter := s.Camera.Position
        log := s.log ++ [Event.Render] } := by
  cases hc : s.collision <;>
    simp [OnKeyPress, arrowKeys, freeBranch, tail, SetDistance_one, SetClippingRange, hUp, hDown, hLeft,
      hRight, hz, hZ, hs, hS, hEsc, hc]

/-- C6 at the key `q`, from the sample state. -/
theorem OnKeyPress_unmapped_witness :
    OnKeyPress sampleDirection blockedScene "q" sampleState =
      some { sampleState with
        Camera := { sampleState.Camera with Distance := 1, ClippingRange := (1 / 2, 1000) }
        SphereCenter := sampleState.Camera.Position
        log := sampleState.log ++ [Event.Render] } :=
  OnKeyPress_unmapped sampleDirection blockedScene "q" sampleState (by decide) (by decide)
    (by decide) (by decide) (by decide) (by decide) (by decide) (by decide) (by decide)

/-- C4: with collision on and an extracted local patch of 0 cells, `z` or `Z` returns the
starting camera moved by the full forward step (`Dolly(5)` then focal distance 1, that is
`1 - 1/5` along the view direction) with no corrective dolly, whatever the stored `nb_inter`;
`Surface` and `nb_inter` are unchanged, and the calls made are the locator query, the
extraction and the tail render: the intersection filter is not updated. -/
theorem OnKeyPress_forward_empty_patch (dop : ℚ → ℚ → Vec3) (env : Env) (key : String)
    (s : State) (hkey : key = "z" ∨ key = "Z") (hc : s.collision = true)
    (hp : (localPatch env s).length = 0) :
    ∃ t, OnKeyPress dop env key s = some t ∧
      t.Camera =
        SetDistance 1 (SetClippingRange (1 / 2) 1000
          (SetDistance 1 (Dolly dop 5 (SetDistance 1 s.Camera)))) ∧
      t.Camera.Position =
        s.Camera.Position + Vec3.scale (1 - 1 / 5) (dop s.Camera.pitch s.Camera.azimuth) ∧
      t.Surface = s.Surface ∧ t.nb_inter = s.nb_inter ∧
      t.log =
        s.log ++ [Event.FindCells (cameraBounds s.Camera),
          Event.Extract (s.cellIdArray ++ env.FindCellsWithinBounds (cameraBounds s.Camera)),
          Event.Render] := by
  have hsel : (dollyStep dop 5 (patchState env s)).selectedCells.length = 0 := hp
  obtain ⟨hcam, -, hnb, -, -⟩ := patchState_camera env s
  obtain ⟨hsurf, hlog⟩ := patchState_empty env s hp
  refine ⟨_, OnKeyPress_forward dop env key s hkey hc, ?_⟩
  rw [probeAndCorrect_skip dop env _ _ hsel]
  simp [tail, dollyStep, hcam, hnb, hsurf, hlog, SetDistance_one, SetClippingRange, Dolly_pos]

/-- C4 at the key `z` in the empty scene, from a state whose stored `nb_inter` is 2. -/
theorem OnKeyPress_forward_empty_patch_witness :
    ∃ t, OnKeyPress sampleDirection emptyScene "z" { sampleState with nb_inter := 2 } = some t ∧
      t.Camera =
        SetDistance 1 (SetClippingRange (1 / 2) 1000
          (SetDistance 1 (Dolly sampleDirection 5 (SetDistance 1 sampleCamera)))) ∧
      t.Camera.Position =
        sampleCamera.Position + Vec3.scale (1 - 1 / 5) (sampleDirection 0 0) ∧
      t.Surface = [1, 2, 3] ∧ t.nb_inter = 2 ∧
      t.log =
        [Event.FindCells (cameraBounds sampleCamera),
          Event.Extract ([] ++ emptyScene.FindCellsWithinBounds (cameraBounds sampleCamera)),
          Event.Render] :=
  OnKeyPress_forward_empty_patch sampleDirection emptyScene "z" { sampleState with nb_inter := 2 }
    (Or.inl rfl) rfl rfl

/-- C3: with collision off, for `z`, `Z`, `s`, `S` and two states (and scenes) that agree on
the camera and differ arbitrarily elsewhere, `OnKeyPress` returns the same camera: the full
step `Dolly(5)` for `z`/`Z` and `Dolly(0.6)` for `s`/`S` from focal distance 1, focal
distance 1 afterwards.  In each run the only call logged is the tail render (no locator
query, no extraction, no intersection update), and `Surface`, `cellIdArray` and `nb_inter`
are unchanged. -/
theorem OnKeyPress_collision_off (dop : ℚ → ℚ → Vec3) (env₁ env₂ : Env) (key : String)
    (s₁ s₂ : State) (hkey : key = "z" ∨ key = "Z" ∨ key = "s" ∨ key = "S")
    (h₁ : s₁.collision = false) (h₂ : s₂.collision = false) (hcam : s₁.Camera = s₂.Camera) :
    ∃ t₁ t₂, OnKeyPress dop env₁ key s₁ = some t₁ ∧ OnKeyPress dop env₂ key s₂ = some t₂ ∧
      t₁.Camera = t₂.Camera ∧
      t₁.Camera =
        SetDistance 1 (SetClippingRange (1 / 2) 1000
          (SetDistance 1
            (Dolly dop (if key = "z" ∨ key = "Z" then 5 else 6 / 10)
              (SetDistance 1 s₁.Camera)))) ∧
      t₁.Camera.Distance = 1 ∧
      t₁.Surface = s₁.Surface ∧ t₁.cellIdArray = s₁.cellIdArray ∧ t₁.nb_inter = s₁.nb_inter ∧
      t₁.log = s₁.log ++ [Event.Render] ∧
      t₂.Surface = s₂.Surface ∧ t₂.cellIdArray = s₂.cellIdArray ∧ t₂.nb_inter = s₂.nb_inter ∧
      t₂.log = s₂.log ++ [Event.Render] := by
  refine ⟨_, _, OnKeyPress_free dop env₁ key s₁ hkey h₁, OnKeyPress_free dop env₂ key s₂ hkey h₂,
    ?_⟩
  simp [hcam, SetDistance_one]

/-- C3 at the key `s`, for two states with the sample camera that differ in scene,
`Surface`, `cellIdArray` and `nb_inter`. -/
theorem OnKeyPress_collision_off_witness :
    ∃ t₁ t₂,
      OnKeyPress sampleDirection blockedScene "s" { sampleState with collision := false }
        = some t₁ ∧
      OnKeyPress sampleDirection emptyScene "s"
        { sampleState with collision := false, Surface := [], cellIdArray := [4], nb_inter := 7 }
        = some t₂ ∧
      t₁.Camera = t₂.Camera ∧
      t₁.Camera =
        SetDistance 1 (SetClippingRange (1 / 2) 1000
          (SetDistance 1
            (Dolly sampleDirection (if ("s" : String) = "z" ∨ ("s" : String) = "Z" then 5
              else 6 / 10) (SetDistance 1 sampleCamera)))) ∧
      t₁.Camera.Distance = 1 ∧
      t₁.Surface = [1, 2, 3] ∧ t₁.cellIdArray = [] ∧ t₁.nb_inter = 0 ∧
      t₁.log = [] ++ [Event.Render] ∧
      t₂.Surface = [] ∧ t₂.cellIdArray = [4] ∧ t₂.nb_inter = 7 ∧
      t₂.log = [] ++ [Event.Render] :=
  OnKeyPress_collision_off sampleDirection blockedScene emptyScene "s"
    { sampleState with collision := false }
    { sampleState with collision := false, Surface := [], cellIdArray := [4], nb_inter := 7 }
    (Or.inr (Or.inr (Or.inl rfl))) rfl rfl rfl

/-- C2: with collision on, a non-empty local patch and an intersection count `> 0` after a
forward key, the camera ends displaced along its view direction by
`(1 - 1/5) + (1 - 1/(3/10))`, the forward step left it displaced by `1 - 1/5`, and the
first is strictly less than the second. -/
theorem OnKeyPress_forward_blocked_displacement (dop : ℚ → ℚ → Vec3) (env : Env)
    (key : String) (s : State) (hkey : key = "z" ∨ key = "Z") (hc : s.collision = true)
    (hp : 1 ≤ (localPatch env s).length) (hn : 0 < probeCount dop env 5 s) :
    ∃ t, OnKeyPress dop env key s = some t ∧
      t.Camera.Position =
        s.Camera.Position +
          Vec3.scale ((1 - 1 / 5) + (1 - 1 / (3 / 10))) (dop s.Camera.pitch s.Camera.azimuth) ∧
      (dollyStep dop 5 (patchState env s)).Camera.Position =
        s.Camera.Position + Vec3.scale (1 - 1 / 5) (dop s.Camera.pitch s.Camera.azimuth) ∧
      ((1 - 1 / 5) + (1 - 1 / (3 / 10)) : ℚ) < 1 - 1 / 5 := by
  have hsel : 1 ≤ (dollyStep dop 5 (patchState env s)).selectedCells.length := hp
  obtain ⟨hcam, -, -, -, -⟩ := patchState_camera env s
  refine ⟨_, OnKeyPress_forward dop env key s hkey hc, ?_, ?_, by norm_num⟩
  · rw [probeAndCorrect_blocked dop env _ _ hsel hn]
    simp only [tail, dollyStep, hcam, SetDistance_one, SetClippingRange]
    rw [Dolly_pos dop 5 (by norm_num)]
    simp only []
    rw [Dolly_pos dop (3 / 10) (by norm_num)]
    ext <;> simp <;> ring
  · simp only [dollyStep, hcam, SetDistance_one]
    rw [Dolly_pos dop 5 (by norm_num)]

/-- C2 at the key `z`, from the sample state in the blocked scene. -/
theorem OnKeyPress_forward_blocked_displacement_witness :
    ∃ t, OnKeyPress sampleDirection blockedScene "z" sampleState = some t ∧
      t.Camera.Position =
        sampleState.Camera.Position +
          Vec3.scale ((1 - 1 / 5) + (1 - 1 / (3 / 10)))
            (sampleDirection sampleState.Camera.pitch sampleState.Camera.azimuth) ∧
      (dollyStep sampleDirection 5 (patchState blockedScene sampleState)).Camera.Position =
        sampleState.Camera.Position +
          Vec3.scale (1 - 1 / 5)
            (sampleDirection sampleState.Camera.pitch sampleState.Camera.azimuth) ∧
      ((1 - 1 / 5) + (1 - 1 / (3 / 10)) : ℚ) < 1 - 1 / 5 :=
  OnKeyPress_forward_blocked_displacement sampleDirection blockedScene "z" sampleState
    (Or.inl rfl) rfl (by decide) (by decide)

/-- C10: with collision on, a local patch of at least 1 cell and a count `> 0` on a forward
key, the camera returned is the starting camera after the opening `SetDistance(1)`,
`Dolly(5)`, `SetDistance(1)`, `Dolly(0.3)`, `SetDistance(1)` and the tail, the count is
stored in `nb_inter`, and the log gains three renders: after the move, after the correction,
and the tail render.  For every key other than `Escape` the number of renders is 1, plus 1
if the probe ran (collision on, translation key, non-empty patch), plus 1 more if the probe
reported a count `> 0`. -/
theorem OnKeyPress_renders (dop : ℚ → ℚ → Vec3) (env : Env) (key : String) (s : State) :
    ((key = "z" ∨ key = "Z") → s.collision = true → 1 ≤ (localPatch env s).length →
      0 < probeCount dop env 5 s →
      ∃ t, OnKeyPress dop env key s = some t ∧
        t.Camera =
          SetDistance 1 (SetClippingRange (1 / 2) 1000
            (SetDistance 1 (Dolly dop (3 / 10)
              (SetDistance 1 (Dolly dop 5 (SetDistance 1 s.Camera)))))) ∧
        t.nb_inter = probeCount dop env 5 s ∧
        t.log =
          s.log ++ [Event.FindCells (cameraBounds s.Camera),
            Event.Extract (s.cellIdArray ++ env.FindCellsWithinBounds (cameraBounds s.Camera)),
            Event.Geometry, Event.IntersectionUpdate,
            Event.Render, Event.IntersectionUpdate, Event.Render, Event.Render] ∧
        renderCount t.log = renderCount s.log + 3) ∧
    (key ≠ "Escape" →
      ∃ t, OnKeyPress dop env key s = some t ∧
        renderCount t.log =
          renderCount s.log + 1 +
            (if s.collision = true ∧ (key = "z" ∨ key = "Z" ∨ key = "s" ∨ key = "S") ∧
                1 ≤ (localPatch env s).length then 1 else 0) +
            (if s.collision = true ∧ (key = "z" ∨ key = "Z" ∨ key = "s" ∨ key = "S") ∧
                1 ≤ (localPatch env s).length ∧
                0 < probeCount dop env (if key = "z" ∨ key = "Z" then 5 else 6 / 10) s
              then 1 else 0)) := by
  obtain ⟨hcam, -, -, -, -⟩ := patchState_camera env s
  constructor
  · intro hkey hc hp hn
    have hsel : 1 ≤ (dollyStep dop 5 (patchState env s)).selectedCells.length := hp
    obtain ⟨-, -, hlog⟩ := patchState_nonempty env s hp
    refine ⟨_, OnKeyPress_forward dop env key s hkey hc, ?_⟩
    rw [probeAndCorrect_blocked dop env _ _ hsel hn]
    refine ⟨?_, ?_, ?_, ?_⟩
    · simp [tail, dollyStep, hcam, SetDistance_one]
    · simp [tail, probeCount]
    · simp [tail, dollyStep, hlog]
    · simp [tail, dollyStep, hlog, renderCount]
  · intro hEsc
    by_cases hkey : key = "z" ∨ key = "Z" ∨ key = "s" ∨ key = "S"
    · cases hc : s.collision
      · refine ⟨_, OnKeyPress_free dop env key s hkey hc, ?_⟩
        simp [renderCount]
      · have hfb : (key = "z" ∨ key = "Z") ∨ ((key = "s" ∨ key = "S") ∧
            ¬ (key = "z" ∨ key = "Z")) := by
          rcases hkey with rfl | rfl | rfl | rfl <;> simp
        by_cases hp : 1 ≤ (localPatch env s).length
        · obtain ⟨-, -, hlog⟩ := patchState_nonempty env s hp
          rcases hfb with hf | ⟨hb, hnf⟩
          · have hsel : 1 ≤ (dollyStep dop 5 (patchState env s)).selectedCells.length := hp
            refine ⟨_, OnKeyPress_forward dop env key s hf hc, ?_⟩
            by_cases hn : 0 < probeCount dop env 5 s
            · rw [probeAndCorrect_blocked dop env _ _ hsel hn]
              simp [tail, dollyStep, hlog, renderCount, hkey, hp, hf, hn]
            · rw [probeAndCorrect_clear dop env _ _ hsel hn]
              simp only [not_lt] at hn
              simp [tail, dollyStep, hlog, renderCount, hkey, hp, hf, hn]
          · have hsel : 1 ≤ (dollyStep dop (6 / 10) (patchState env s)).selectedCells.length :=
              hp
            refine ⟨_, OnKeyPress_backward dop env key s hb hc, ?_⟩
            by_cases hn : 0 < probeCount dop env (6 / 10) s
            · rw [probeAndCorrect_blocked dop env _ _ hsel hn]
              simp [tail, dollyStep, hlog, renderCount, hkey, hp, hnf, hn]
            · rw [probeAndCorrect_clear dop env _ _ hsel hn]
              simp only [not_lt] at hn
              simp [tail, dollyStep, hlog, renderCount, hkey, hp, hnf, hn]
        · have hp0 : (localPatch env s).length = 0 := by omega
          obtain ⟨-, hlog⟩ := patchState_empty env s hp0
          rcases hfb with hf | ⟨hb, -⟩
          · have hsel : (dollyStep dop 5 (patchState env s)).selectedCells.length = 0 := hp0
            refine ⟨_, OnKeyPress_forward dop env key s hf hc, ?_⟩
            rw [probeAndCorrect_skip dop env _ _ hsel]
            simp [tail, dollyStep, hlog, renderCount, hp0]
          · have hsel : (dollyStep dop (6 / 10) (patchState env s)).selectedCells.length = 0 :=
              hp0
            refine ⟨_, OnKeyPress_backward dop env key s hb hc, ?_⟩
            rw [probeAndCorrect_skip dop env _ _ hsel]
            simp [tail, dollyStep, hlog, renderCount, hp0]
    · refine ⟨_, OnKeyPress_not_translation dop env key s hkey hEsc, ?_⟩
      simp [tail, renderCount, hkey]

/-- The blocked forward key and the general count of C10, at the sample state in the blocked
scene: three renders for `z`, and the general count for `s`. -/
theorem OnKeyPress_renders_witness :
    (∃ t, OnKeyPress sampleDirection blockedScene "z" sampleState = some t ∧
      t.Camera =
        SetDistance 1 (SetClippingRange (1 / 2) 1000
          (SetDistance 1 (Dolly sampleDirection (3 / 10)
            (SetDistance 1 (Dolly sampleDirection 5 (SetDistance 1 sampleState.Camera)))))) ∧
      t.nb_inter = probeCount sampleDirection blockedScene 5 sampleState ∧
      t.log =
        sampleState.log ++ [Event.FindCells (cameraBounds sampleState.Camera),
          Event.Extract (sampleState.cellIdArray ++
            blockedScene.FindCellsWithinBounds (cameraBounds sampleState.Camera)),
          Event.Geometry, Event.IntersectionUpdate,
          Event.Render, Event.IntersectionUpdate, Event.Render, Event.Render] ∧
      renderCount t.log = renderCount sampleState.log + 3) ∧
    (∃ t, OnKeyPress sampleDirection blockedScene "s" sampleState = some t ∧
      renderCount t.log =
        renderCount sampleState.log + 1 +
          (if sampleState.collision = true ∧
              (("s" : String) = "z" ∨ ("s" : String) = "Z" ∨ ("s" : String) = "s" ∨
                ("s" : String) = "S") ∧
              1 ≤ (localPatch blockedScene sampleState).length then 1 else 0) +
          (if sampleState.collision = true ∧
              (("s" : String) = "z" ∨ ("s" : String) = "Z" ∨ ("s" : String) = "s" ∨
                ("s" : String) = "S") ∧
              1 ≤ (localPatch blockedScene sampleState).length ∧
              0 < probeCount sampleDirection blockedScene
                (if ("s" : String) = "z" ∨ ("s" : String) = "Z" then 5 else 6 / 10) sampleState
            then 1 else 0)) :=
  ⟨(OnKeyPress_renders sampleDirection blockedScene "z" sampleState).1 (Or.inl rfl) rfl
      (by decide) (by decide),
    (OnKeyPress_renders sampleDirection blockedScene "s" sampleState).2 (by decide)⟩

/-- C8 (amended): `Up` applies `Pitch(+1)`, `Down` applies `Pitch(-1)`, `Left` applies
`Azimuth(+1)` and `Right` applies `Azimuth(-1)`; for each of the four keys, with collision on
or off, the only call logged is the tail render (no locator query, no extraction, no
intersection update). -/
theorem OnKeyPress_arrow_keys (dop : ℚ → ℚ → Vec3) (env : Env) (s : State) :
    (∃ t, OnKeyPress dop env "Up" s = some t ∧
      t.Camera = SetDistance 1 (SetClippingRange (1 / 2) 1000 (Pitch 1 (SetDistance 1 s.Camera)))
      ∧ t.Camera.pitch = s.Camera.pitch + 1 ∧ t.Camera.azimuth = s.Camera.azimuth ∧
      t.log = s.log ++ [Event.Render]) ∧
    (∃ t, OnKeyPress dop env "Down" s = some t ∧
      t.Camera =
        SetDistance 1 (SetClippingRange (1 / 2) 1000 (Pitch (-1) (SetDistance 1 s.Camera)))
      ∧ t.Camera.pitch = s.Camera.pitch - 1 ∧ t.Camera.azimuth = s.Camera.azimuth ∧
      t.log = s.log ++ [Event.Render]) ∧
    (∃ t, OnKeyPress dop env "Left" s = some t ∧
      t.Camera =
        SetDistance 1 (SetClippingRange (1 / 2) 1000 (Azimuth dop 1 (SetDistance 1 s.Camera)))
      ∧ t.Camera.azimuth = s.Camera.azimuth + 1 ∧ t.Camera.pitch = s.Camera.pitch ∧
      t.log = s.log ++ [Event.Render]) ∧
    (∃ t, OnKeyPress dop env "Right" s = some t ∧
      t.Camera =
        SetDistance 1 (SetClippingRange (1 / 2) 1000 (Azimuth dop (-1) (SetDistance 1 s.Camera)))
      ∧ t.Camera.azimuth = s.Camera.azimuth - 1 ∧ t.Camera.pitch = s.Camera.pitch ∧
      t.log = s.log ++ [Event.Render]) := by
  refine ⟨⟨_, OnKeyPress_not_translation dop env "Up" s (by decide) (by decide), ?_⟩,
    ⟨_, OnKeyPress_not_translation dop env "Down" s (by decide) (by decide), ?_⟩,
    ⟨_, OnKeyPress_not_translation dop env "Left" s (by decide) (by decide), ?_⟩,
    ⟨_, OnKeyPress_not_translation dop env "Right" s (by decide) (by decide), ?_⟩⟩ <;>
  simp [tail, arrowKeys, Pitch, Azimuth, SetDistance_one, SetClippingRange, sub_eq_add_neg]

/-- C8, as stated, fails at `Left`: from the sample state (azimuth 0) the handler applies
`Azimuth(+1)`, so the azimuth is `0 + 1`, not `0 - 1`. -/
theorem OnKeyPress_Left_is_plus_one :
    ∃ t, OnKeyPress sampleDirection blockedScene "Left" sampleState = some t ∧
      t.Camera.azimuth = sampleState.Camera.azimuth + 1 ∧
      t.Camera.azimuth ≠ sampleState.Camera.azimuth - 1 := by
  refine ⟨_, OnKeyPress_not_translation sampleDirection blockedScene "Left" sampleState
    (by decide) (by decide), ?_⟩
  simp [tail, arrowKeys, Azimuth, SetDistance_one, SetClippingRange, sampleState, construct,
    sampleCamera]
  norm_num

/-- C7 (amended): for every starting state and either value of the collision flag, `Up`
then `Down` returns the pitch to its starting value with the camera position unchanged
throughout, and `Left` then `Right` returns the azimuth and the camera position to their
starting values.  After `Left` alone the camera has been carried around the focal point, to
`Position + dop pitch azimuth - dop pitch (azimuth + 1)`, and that is the starting position
exactly when the direction of projection is the same at `azimuth + 1` and at `azimuth`. -/
theorem OnKeyPress_arrow_pairs (dop : ℚ → ℚ → Vec3) (env : Env) (s : State) :
    (∃ t₁ t₂, OnKeyPress dop env "Up" s = some t₁ ∧ OnKeyPress dop env "Down" t₁ = some t₂ ∧
      t₂.Camera.pitch = s.Camera.pitch ∧ t₂.Camera.azimuth = s.Camera.azimuth ∧
      t₁.Camera.Position = s.Camera.Position ∧ t₂.Camera.Position = s.Camera.Position) ∧
    (∃ t₁ t₂, OnKeyPress dop env "Left" s = some t₁ ∧ OnKeyPress dop env "Right" t₁ = some t₂ ∧
      t₂.Camera.azimuth = s.Camera.azimuth ∧ t₂.Camera.pitch = s.Camera.pitch ∧
      t₁.Camera.Position =
        s.Camera.Position + dop s.Camera.pitch s.Camera.azimuth
          - dop s.Camera.pitch (s.Camera.azimuth + 1) ∧
      (t₁.Camera.Position = s.Camera.Position ↔
        dop s.Camera.pitch (s.Camera.azimuth + 1) = dop s.Camera.pitch s.Camera.azimuth) ∧
      t₂.Camera.Position = s.Camera.Position) := by
  refine ⟨⟨_, _, OnKeyPress_not_translation dop env "Up" s (by decide) (by decide),
      OnKeyPress_not_translation dop env "Down" _ (by decide) (by decide), ?_⟩,
    ⟨_, _, OnKeyPress_not_translation dop env "Left" s (by decide) (by decide),
      OnKeyPress_not_translation dop env "Right" _ (by decide) (by decide), ?_⟩⟩
  · simp [tail, arrowKeys, Pitch, SetDistance_one, SetClippingRange]
  · simp only [tail, arrowKeys, Azimuth, Camera.FocalPoint, SetDistance_one, SetClippingRange]
    simp only [String.reduceEq, if_true, if_false]
    have haz : s.Camera.azimuth + 1 + -1 = s.Camera.azimuth := by ring
    have hpos : s.Camera.Position + Vec3.scale 1 (dop s.Camera.pitch s.Camera.azimuth)
          - Vec3.scale 1 (dop s.Camera.pitch (s.Camera.azimuth + 1)) =
        s.Camera.Position + dop s.Camera.pitch s.Camera.azimuth
          - dop s.Camera.pitch (s.Camera.azimuth + 1) := by
      ext <;> simp
    refine ⟨haz, trivial, hpos, ?_, ?_⟩
    · rw [hpos]
      exact Vec3.add_sub_eq_self_iff _ _ _
    · rw [haz]
      ext <;> simp

/-- C7, as stated, fails at `Left`: from the sample state (camera at `(0, 0, 1)`, focal
point at the origin) the camera position after `Left` is the focal point minus the new
direction of projection; its `x` coordinate lies between `0.01745` and `0.01746` (it is
`sin 1°` in the program) and its `z` coordinate between `0.99984` and `0.99985`, so it is
not the starting position. -/
theorem OnKeyPress_Left_moves_camera :
    ∃ t, OnKeyPress sampleDirection blockedScene "Left" sampleState = some t ∧
      t.Camera.Position =
        sampleState.Camera.Position + sampleDirection 0 0 - sampleDirection 0 1 ∧
      1745 / 100000 < t.Camera.Position.x ∧ t.Camera.Position.x < 1746 / 100000 ∧
      t.Camera.Position.y = 0 ∧
      99984 / 100000 < t.Camera.Position.z ∧ t.Camera.Position.z < 99985 / 100000 ∧
      t.Camera.Position ≠ sampleState.Camera.Position := by
  refine ⟨_, OnKeyPress_not_translation sampleDirection blockedScene "Left" sampleState
    (by decide) (by decide), ?_⟩
  simp only [tail, arrowKeys, Azimuth, Camera.FocalPoint, SetDistance_one, SetClippingRange,
    sampleState, construct, sampleCamera, sampleDirection]
  simp only [String.reduceEq, if_true, if_false]
  refine ⟨?_, ?_, ?_, ?_, ?_, ?_, ?_⟩
  · ext <;> simp
  · norm_num
  · norm_num
  · norm_num
  · norm_num
  · norm_num
  · intro h
    have hx := congrArg Vec3.x h
    norm_num at hx

/-- C9: evaluation of the handler where the corrective dolly should restore the position.
From the sample state, in a scene where the probe reports 2 intersection points, a blocked
`z` ends at `z = 38/15` and a blocked `s` at `z = 23/30`; the camera started at `z = 1`. -/
theorem OnKeyPress_blocked_not_restored :
    (∃ t, OnKeyPress sampleDirection blockedScene "z" sampleState = some t ∧
      t.nb_inter = 2 ∧ t.Camera.Position = ⟨0, 0, 38 / 15⟩ ∧
      t.Camera.Position ≠ sampleState.Camera.Position) ∧
    (∃ t, OnKeyPress sampleDirection blockedScene "s" sampleState = some t ∧
      t.nb_inter = 2 ∧ t.Camera.Position = ⟨0, 0, 23 / 30⟩ ∧
      t.Camera.Position ≠ sampleState.Camera.Position) := by
  constructor
  · refine ⟨_, OnKeyPress_forward sampleDirection blockedScene "z" sampleState (Or.inl rfl) rfl,
      ?_⟩
    rw [probeAndCorrect_blocked _ _ _ _ (by decide) (by decide)]
    simp only [tail, dollyStep, (patchState_camera blockedScene sampleState).1, SetDistance_one,
      SetClippingRange]
    rw [Dolly_pos _ 5 (by norm_num)]
    simp only []
    rw [Dolly_pos _ (3 / 10) (by norm_num)]
    simp only [blockedScene, sampleState, construct, sampleCamera, sampleDirection]
    refine ⟨trivial, ?_, ?_⟩
    · ext <;> norm_num
    · intro h
      have h3 := congrArg Vec3.z h
      simp at h3
      norm_num at h3
  · refine ⟨_, OnKeyPress_backward sampleDirection blockedScene "s" sampleState (Or.inl rfl) rfl,
      ?_⟩
    rw [probeAndCorrect_blocked _ _ _ _ (by decide) (by decide)]
    simp only [tail, dollyStep, (patchState_camera blockedScene sampleState).1, SetDistance_one,
      SetClippingRange]
    rw [Dolly_pos _ (6 / 10) (by norm_num)]
    simp only []
    rw [Dolly_pos _ 10 (by norm_num)]
    simp only [blockedScene, sampleState, construct, sampleCamera, sampleDirection]
    refine ⟨trivial, ?_, ?_⟩
    · ext <;> norm_num
    · intro h
      have h3 := congrArg Vec3.z h
      simp at h3
      norm_num at h3

/-- C1: evaluation of the handler on two successive `z` presses after construction.  The
locator returns `[7]` for the box of the first press and `[9]` for the box of the second
press; the list handed to the extractor on the second press is `[7, 9]`. -/
theorem OnKeyPress_accumulates_cell_ids :
    ∃ t₁ t₂, OnKeyPress sampleDirection openScene "z" sampleState = some t₁ ∧
      OnKeyPress sampleDirection openScene "z" t₁ = some t₂ ∧
      pressKeys sampleDirection openScene ["z", "z"] sampleState = some t₂ ∧
      openScene.FindCellsWithinBounds (cameraBounds sampleState.Camera) = [7] ∧
      openScene.FindCellsWithinBounds (cameraBounds t₁.Camera) = [9] ∧
      t₁.log =
        [Event.FindCells (cameraBounds sampleState.Camera), Event.Extract [7], Event.Geometry,
          Event.IntersectionUpdate, Event.Render, Event.IntersectionUpdate, Event.Render] ∧
      t₂.log =
        t₁.log ++ [Event.FindCells (cameraBounds t₁.Camera), Event.Extract [7, 9],
          Event.Geometry, Event.IntersectionUpdate, Event.Render, Event.IntersectionUpdate,
          Event.Render] := by
  have e1 : OnKeyPress sampleDirection openScene "z" sampleState =
      some
        { Camera :=
            { Position := ⟨0, 0, 1 / 5⟩, pitch := 0, azimuth := 0, Distance := 1,
              ClippingRange := (1 / 2, 1000) }
          SphereCenter := ⟨0, 0, 1 / 5⟩
          Surface := [7]
          cellIdArray := [7]
          selectedCells := [7]
          nearestSurface := [7]
          filterSurface := [7]
          nb_inter := 0
          collision := true
          log :=
            [Event.FindCells ⟨-1, 1, -1, 1, 0, 2⟩, Event.Extract [7], Event.Geometry,
              Event.IntersectionUpdate, Event.Render, Event.IntersectionUpdate,
              Event.Render] } := by
    have hq : (3 / 2 : ℚ) < 1 + 1 := by norm_num
    simp [OnKeyPress, arrowKeys, collisionBranch, retargetSurface, extractSelectedCells,
      SetIntersectionPolyDataFilter, probeAndCorrect, dollyStep, tail, cameraBounds,
      SetDistance_one, SetClippingRange, Dolly_pos, sampleState, construct, sampleCamera,
      sampleDirection, openScene, hq]
    refine ⟨?_, by norm_num⟩
    ext <;> norm_num
  have e2 : OnKeyPress sampleDirection openScene "z"
        { Camera :=
            { Position := ⟨0, 0, 1 / 5⟩, pitch := 0, azimuth := 0, Distance := 1,
              ClippingRange := (1 / 2, 1000) }
          SphereCenter := ⟨0, 0, 1 / 5⟩
          Surface := [7]
          cellIdArray := [7]
          selectedCells := [7]
          nearestSurface := [7]
          filterSurface := [7]
          nb_inter := 0
          collision := true
          log :=
            [Event.FindCells ⟨-1, 1, -1, 1, 0, 2⟩, Event.Extract [7], Event.Geometry,
              Event.IntersectionUpdate, Event.Render, Event.IntersectionUpdate,
              Event.Render] } =
      some
        { Camera :=
            { Position := ⟨0, 0, -(3 / 5)⟩, pitch := 0, azimuth := 0, Distance := 1,
              ClippingRange := (1 / 2, 1000) }
          SphereCenter := ⟨0, 0, -(3 / 5)⟩
          Surface := [7, 9]
          cellIdArray := [7, 9]
          selectedCells := [7, 9]
          nearestSurface := [7, 9]
          filterSurface := [7, 9]
          nb_inter := 0
          collision := true
          log :=
            [Event.FindCells ⟨-1, 1, -1, 1, 0, 2⟩, Event.Extract [7], Event.Geometry,
              Event.IntersectionUpdate, Event.Render, Event.IntersectionUpdate,
              Event.Render, Event.FindCells ⟨-1, 1, -1, 1, -(4 / 5), 6 / 5⟩,
              Event.Extract [7, 9], Event.Geometry, Event.IntersectionUpdate, Event.Render,
              Event.IntersectionUpdate, Event.Render] } := by
    have hq : ¬ (3 / 2 : ℚ) < 5⁻¹ + 1 := by norm_num
    simp [OnKeyPress, arrowKeys, collisionBranch, retargetSurface, extractSelectedCells,
      SetIntersectionPolyDataFilter, probeAndCorrect, dollyStep, tail, cameraBounds,
      SetDistance_one, SetClippingRange, Dolly_pos, sampleDirection, openScene, hq]
    refine ⟨?_, by norm_num, by norm_num⟩
    ext <;> norm_num
  refine ⟨_, _, e1, e2, ?_, ?_, ?_, ?_, ?_⟩
  · simp only [pressKeys, e1, Option.some_bind, e2]
  · norm_num [openScene, cameraBounds, sampleState, construct, sampleCamera]
  · norm_num [openScene, cameraBounds]
  · norm_num [cameraBounds, sampleState, construct, sampleCamera]
  · norm_num [cameraBounds]

end VirtualEndoscopy
